import Mathlib

/-!
Verification of the jaxtools base-type core (jaxlib repository).

The Python sources are shallowly embedded below.  Python strings are
modelled as `List Char`, Python tuples/lists/dicts of base-type values as a
mutual inductive `PyVal`, raised exceptions as `Except` error values, and
`datetime.date` objects as a `PyDate` record together with the validity
check the Python constructor performs.  The authoritative modules are the
ones actually importable in the package:

* `src/jaxtools/basetypes/__init__.py`  (Tag, checkers, `isBaseType`,
  `getBaseTypeId`, `checkBaseType`)
* `src/jaxtools/basetypehelpers.py` and the identical
  `src/jaxtools/basetypes/typehelpers.py`  (category predicates)
* `src/jaxtools/basetypereaderwriterhelpers.py`  (`ChildReader`,
  `readWithCallbacks`)
* `src/jaxtools/basetypes/dictreaderwriter.py`  (`DictWriter`)
* `src/jaxtools/typehelpers.py`  (`isNone`, `isBool`, `isInt`, ...)

`src/jaxtools/basetypeids.py` is an older draft of the same code; where a
claim cites both files the package version is embedded.
-/

set_option maxHeartbeats 1600000

/-! ## Python string helpers -/

/-- Python `s.split(sep)` for a one-character separator, on `List Char`.
Mirrors CPython semantics: splitting the empty string yields `[[]]`, and a
trailing separator yields a trailing empty part. -/
def splitCh (sep : Char) : List Char → List (List Char)
  | [] => [[]]
  | c :: cs =>
    if c = sep then [] :: splitCh sep cs
    else match splitCh sep cs with
         | [] => [[c]]
         | h :: t => (c :: h) :: t

/-- ASCII lowering of one character; models Python `str.lower` on the ASCII
range, which is all the Tag parser compares (`'tag'`). -/
def lowerChar (c : Char) : Char :=
  if 'A' ≤ c ∧ c ≤ 'Z' then Char.ofNat (c.toNat + 32) else c

/-- Python `s.lower()` on `List Char`. -/
def pyLower (s : List Char) : List Char := s.map lowerChar

/-! ## Decimal digits -/

/-- The ASCII digit character for `d < 10`. -/
def digitChar (d : Nat) : Char := Char.ofNat (48 + d)

/-- Is `c` an ASCII decimal digit? -/
def isDigitCh (c : Char) : Bool := 48 ≤ c.toNat && c.toNat ≤ 57

/-- Numeric value of an ASCII digit character. -/
def digitVal (c : Char) : Nat := c.toNat - 48

/-- The number denoted by a list of ASCII digit characters. -/
def digitsToNat (l : List Char) : Nat :=
  l.foldl (fun a c => a * 10 + digitVal c) 0

/-- Fuelled core of decimal printing (fuel strictly exceeds the input). -/
def toDecimalCore : Nat → Nat → List Char
  | 0, _ => []
  | fuel + 1, n =>
    if n < 10 then [digitChar n]
    else toDecimalCore fuel (n / 10) ++ [digitChar (n % 10)]

/-- Python `"{}".format(n)` for a natural number: its decimal digits with no
padding (so `4` prints as `"4"`, not `"04"`). -/
def toDecimal (n : Nat) : List Char := toDecimalCore (n + 1) n

/-! ## Calendar dates

`PyDate` models a Python `datetime.date`; `validDate` models the range check
performed by the `datetime.date` constructor (years 1..9999, real calendar
days), which `datetime.strptime` applies after its regex match. -/

/-- Gregorian leap-year rule, as implemented by Python's `datetime`. -/
def isLeap (y : Nat) : Bool :=
  y % 4 == 0 && (y % 100 != 0 || y % 400 == 0)

/-- Days in a month, as implemented by Python's `datetime`. -/
def daysInMonth (y m : Nat) : Nat :=
  if m = 2 then (if isLeap y then 29 else 28)
  else if m = 4 ∨ m = 6 ∨ m = 9 ∨ m = 11 then 30
  else 31

/-- A Python `datetime.date` value. -/
structure PyDate where
  year : Nat
  month : Nat
  day : Nat
deriving DecidableEq

/-- The validity check of the `datetime.date` constructor. -/
def validDate (y m d : Nat) : Bool :=
  decide (1 ≤ y ∧ y ≤ 9999 ∧ 1 ≤ m ∧ m ≤ 12 ∧ 1 ≤ d ∧ d ≤ daysInMonth y m)

/-! ## strptime models

CPython's `_strptime` compiles `%Y` to the regex `\d\d\d\d` (exactly four
digits), `%m` to `1[0-2]|0[1-9]|[1-9]` and `%d` to
`3[01]|[12]\d|0[1-9]|[1-9]`, requires the whole string to match, and then
builds a `datetime.date` (which raises on out-of-range values such as
February 30 or year 0).  Since digits never contain `'-'`, a full-string
match of `%Y-%m-%d` is exactly: splitting on `'-'` yields the right number
of segments and each segment matches its component regex. -/

/-- Full-segment match of `%Y`: exactly four digits. -/
def matchY (l : List Char) : Option Nat :=
  if l.length = 4 ∧ l.all isDigitCh = true then Option.some (digitsToNat l)
  else Option.none

/-- Full-segment match of `%m`: regex `1[0-2]|0[1-9]|[1-9]`. -/
def matchM (l : List Char) : Option Nat :=
  match l with
  | [c] => if isDigitCh c = true ∧ 1 ≤ digitVal c then Option.some (digitVal c)
           else Option.none
  | [c1, c2] =>
    if c1 = '1' ∧ isDigitCh c2 = true ∧ digitVal c2 ≤ 2 then
      Option.some (10 + digitVal c2)
    else if c1 = '0' ∧ isDigitCh c2 = true ∧ 1 ≤ digitVal c2 then
      Option.some (digitVal c2)
    else Option.none
  | _ => Option.none

/-- Full-segment match of `%d`: regex `3[01]|[12]\d|0[1-9]|[1-9]`. -/
def matchD (l : List Char) : Option Nat :=
  match l with
  | [c] => if isDigitCh c = true ∧ 1 ≤ digitVal c then Option.some (digitVal c)
           else Option.none
  | [c1, c2] =>
    if c1 = '3' ∧ (c2 = '0' ∨ c2 = '1') then Option.some (30 + digitVal c2)
    else if (c1 = '1' ∨ c1 = '2') ∧ isDigitCh c2 = true then
      Option.some (10 * digitVal c1 + digitVal c2)
    else if c1 = '0' ∧ isDigitCh c2 = true ∧ 1 ≤ digitVal c2 then
      Option.some (digitVal c2)
    else Option.none
  | _ => Option.none

/-- `datetime.strptime(l, '%Y-%m-%d').date()`, `Option.none` = `ValueError`. -/
def strptimeYMD (l : List Char) : Option PyDate :=
  match splitCh '-' l with
  | [ys, ms, ds] =>
    match matchY ys, matchM ms, matchD ds with
    | Option.some y, Option.some m, Option.some d =>
      if validDate y m d = true then Option.some ⟨y, m, d⟩ else Option.none
    | _, _, _ => Option.none
  | _ => Option.none

/-- `datetime.strptime(l, '%Y-%m').date()`; the day defaults to 1. -/
def strptimeYM (l : List Char) : Option PyDate :=
  match splitCh '-' l with
  | [ys, ms] =>
    match matchY ys, matchM ms with
    | Option.some y, Option.some m =>
      if validDate y m 1 = true then Option.some ⟨y, m, 1⟩ else Option.none
    | _, _ => Option.none
  | _ => Option.none

/-- `datetime.strptime(l, '%Y').date()`; month and day default to 1. -/
def strptimeY (l : List Char) : Option PyDate :=
  match matchY l with
  | Option.some y =>
    if validDate y 1 1 = true then Option.some ⟨y, 1, 1⟩ else Option.none
  | Option.none => Option.none

/-- The nested `try/except` chain of `Tag.__init__`: `%Y-%m-%d`, then
`%Y-%m`, then `%Y`; the first success wins. -/
def tryDateFormats (dateText : List Char) : Option PyDate :=
  match strptimeYMD dateText with
  | Option.some d => Option.some d
  | Option.none =>
    match strptimeYM dateText with
    | Option.some d => Option.some d
    | Option.none => strptimeY dateText

/-! ## Tag (src/jaxtools/basetypes/__init__.py) -/

/-- A constructed `jaxtools.basetypes.Tag` object: the four fields set at the
end of `Tag.__init__`. -/
structure Tag where
  authority : List Char
  date : PyDate
  specific : List Char
  fragment : Option (List Char)
deriving DecidableEq

def msgTagMain : List Char := "tagUri not a valid RFC 4151 Tag URI.".toList

def msgTagEntity : List Char :=
  "tagUri not a valid RFC 4151 Tag URI (tagging entity).".toList

def msgTagDate : List Char := "tagUri not a valid RFC 4151 Tag URI (date).".toList

def msgTagFragment : List Char :=
  "tagUri not a valid RFC 4151 Tag URI (fragment).".toList

/-- `Tag.__init__(tagUri)` of `src/jaxtools/basetypes/__init__.py` (lines
259-321) called with a string and no explicit field arguments, translated
control-path by control-path.  A raised `ValueError` is modelled as
`Except.error` carrying the Python message. -/
def parseTag (tagUri : List Char) : Except (List Char) Tag :=
  match splitCh ':' tagUri with
  | [p0, p1, p2] =>
    if pyLower p0 = "tag".toList then
      match splitCh ',' p1 with
      | [authority, dateText] =>
        match tryDateFormats dateText with
        | Option.some date =>
          match splitCh '#' p2 with
          | [specific] => Except.ok ⟨authority, date, specific, Option.none⟩
          | [specific, fragment] =>
            Except.ok ⟨authority, date, specific, Option.some fragment⟩
          | _ => Except.error msgTagFragment
        | Option.none => Except.error msgTagDate
      | _ => Except.error msgTagEntity
    else Except.error msgTagMain
  | _ => Except.error msgTagMain

/-- `Tag.dateString`: shortest date form (year if day = month = 1, year-month
if only day = 1, else year-month-day), with unpadded components. -/
def dateString (d : PyDate) : List Char :=
  if d.day = 1 then
    if d.month = 1 then toDecimal d.year
    else toDecimal d.year ++ ('-' :: toDecimal d.month)
  else toDecimal d.year ++ ('-' :: (toDecimal d.month ++ ('-' :: toDecimal d.day)))

/-- `Tag.taggingEntityString`: `"{authority},{dateString}"`. -/
def taggingEntityString (t : Tag) : List Char :=
  t.authority ++ (',' :: dateString t.date)

/-- The part after the second colon of `Tag.__str__`: the specific string,
followed by `#fragment` when a fragment is present. -/
def specificAndFragment (t : Tag) : List Char :=
  match t.fragment with
  | Option.none => t.specific
  | Option.some f => t.specific ++ ('#' :: f)

/-- `Tag.__str__`: `"tag:{taggingEntity}:{specific}"` plus `"#{fragment}"`
when the fragment is present. -/
def tagToString (t : Tag) : List Char :=
  "tag".toList ++ (':' :: (taggingEntityString t ++ (':' :: specificAndFragment t)))

/-! ### Spec-side description of the Tag parse algorithm

`tagParseSpec` is NOT a translation of the source: it follows the spec's
words (section 4.1, steps 1-4) for claim C7, to be compared with `parseTag`.
`Option.none` stands for the spec's `MalformedTagError`. -/

/-- First success of a list of attempts, in order ("first success wins"). -/
def firstSome {α : Type} : List (Option α) → Option α
  | [] => Option.none
  | Option.some a :: _ => Option.some a
  | Option.none :: rest => firstSome rest

/-- Spec step 3: try `YYYY-MM-DD`, then `YYYY-MM`, then `YYYY`, in that
order; first success wins. -/
def specParseDate (dateText : List Char) : Option PyDate :=
  firstSome [strptimeYMD dateText, strptimeYM dateText, strptimeY dateText]

/-- Modelled from the spec (section 4.1): split on `':'` into exactly 3 parts
with the first case-insensitively `"tag"`; split the middle on `','` into
exactly 2 parts; parse the date by `specParseDate`; split the last part on
`'#'` (1 part = no fragment, 2 parts = fragment, more fails). -/
def tagParseSpec (s : List Char) : Option Tag :=
  let parts := splitCh ':' s
  if parts.length = 3 ∧ pyLower (parts.getD 0 []) = "tag".toList then
    let entity := splitCh ',' (parts.getD 1 [])
    if entity.length = 2 then
      match specParseDate (entity.getD 1 []) with
      | Option.some d =>
        let hashParts := splitCh '#' (parts.getD 2 [])
        if hashParts.length = 1 then
          Option.some ⟨entity.getD 0 [], d, hashParts.getD 0 [], Option.none⟩
        else if hashParts.length = 2 then
          Option.some ⟨entity.getD 0 [], d, hashParts.getD 0 [],
            Option.some (hashParts.getD 1 [])⟩
        else Option.none
      | Option.none => Option.none
    else Option.none
  else Option.none

/-! ## Base type ids (src/jaxtools/basetypes/__init__.py, BaseTypeIds) -/

/-- The `BaseTypeIds` enumeration. -/
inductive BaseTypeIds where
  | NULL | BOOL | INT | FLOAT | DATETIME
  | STRING | URN | TAG | BLOB
  | PAIR | COLOR | GEOLOCATION | PREDICATE
  | LIST | DICTIONARY | PACKABLE | END
deriving DecidableEq

/-- The numeric values assigned to the enumeration members. -/
def BaseTypeIds.toNat : BaseTypeIds → Nat
  | .NULL => 0 | .BOOL => 1 | .INT => 4 | .FLOAT => 8 | .DATETIME => 9
  | .STRING => 64 | .URN => 65 | .TAG => 66 | .BLOB => 67
  | .PAIR => 128 | .COLOR => 129 | .GEOLOCATION => 130 | .PREDICATE => 131
  | .LIST => 256 | .DICTIONARY => 257 | .PACKABLE => 384 | .END => 65535

/-! ## Python values

`PyVal` models the Python values the base-type checkers inspect.  `floatV`,
`dateTimeV`, `tagV` and `packableV` carry no payload because the checkers
only inspect their type.  `unknownObj` stands for any object matched by no
`isinstance` test of the checkers (an opaque object).  Dictionaries are
entry lists in insertion order, as iterated by `dict.items()`. -/

mutual
inductive PyVal : Type where
  | noneV : PyVal
  | boolV (b : Bool) : PyVal
  | intV (n : Int) : PyVal
  | floatV : PyVal
  | dateTimeV : PyVal
  | strV (s : List Char) : PyVal
  | tagV : PyVal
  | packableV : PyVal
  | unknownObj : PyVal
  | tupleV (l : PyValList) : PyVal
  | listV (l : PyValList) : PyVal
  | dictV (l : PyPairs) : PyVal
inductive PyValList : Type where
  | nil : PyValList
  | cons (hd : PyVal) (tl : PyValList) : PyValList
inductive PyPairs : Type where
  | nil : PyPairs
  | cons (k : PyVal) (v : PyVal) (tl : PyPairs) : PyPairs
end

deriving instance DecidableEq for PyVal
deriving instance DecidableEq for PyValList
deriving instance DecidableEq for PyPairs

/-! ### src/jaxtools/typehelpers.py -/

/-- `isNone`: `val is None`. -/
def isNone : PyVal → Bool
  | .noneV => true
  | _ => false

/-- `isBool`: `type(val) is bool`. -/
def isBool : PyVal → Bool
  | .boolV _ => true
  | _ => false

/-- `isInt`: `not isBool(val) and type(val) is int`. -/
def isInt (v : PyVal) : Bool :=
  !isBool v && (match v with | .intV _ => true | _ => false)

/-- `isFloat`: `type(val) is float`. -/
def isFloat : PyVal → Bool
  | .floatV => true
  | _ => false

/-- `isDateTime`: `isinstance(val, datetime.datetime)`. -/
def isDateTime : PyVal → Bool
  | .dateTimeV => true
  | _ => false

/-- `isString`: `isinstance(val, str)`. -/
def isString : PyVal → Bool
  | .strV _ => true
  | _ => false

/-- `isTuple`: `isinstance(val, tuple)`. -/
def isTuple : PyVal → Bool
  | .tupleV _ => true
  | _ => false

/-- `isList`: `isinstance(val, list)`. -/
def isList : PyVal → Bool
  | .listV _ => true
  | _ => false

/-- `isDict`: `isinstance(val, dict)`. -/
def isDict : PyVal → Bool
  | .dictV _ => true
  | _ => false

/-- `isBaseTypeTag`: `isinstance(val, Tag)`. -/
def isBaseTypeTag : PyVal → Bool
  | .tagV => true
  | _ => false

/-- `isBaseTypePackable`: `isinstance(val, Packable)`. -/
def isBaseTypePackable : PyVal → Bool
  | .packableV => true
  | _ => false

/-! ### The recursive checkers of src/jaxtools/basetypes/__init__.py

`_baseTypeCheckers` registers, in insertion order: NULL `isNone`,
BOOL `isBool`, INT `isInt`, FLOAT `isFloat`, DATETIME `isDateTime`,
STRING `isString`, TAG `isBaseTypeTag`, PAIR `isBaseTypePair`,
LIST `isBaseTypeList`, DICTIONARY `isBaseTypeDict`,
PACKABLE `isBaseTypePackable` (URN and BLOB are commented out).
`isBaseType` tries every registered checker; `memberCheck1` is the
`elif` chain applied to each member inside the loops of `isBaseTypeList`
and `isBaseTypeDict`. -/

mutual
/-- `isBaseType(val)`: some registered checker accepts `val` (none of the
modelled checkers raises, so the `try/except` wrappers are invisible). -/
def isBaseType (v : PyVal) : Bool :=
  isNone v || isBool v || isInt v || isFloat v || isDateTime v || isString v ||
    isBaseTypeTag v || isBaseTypePair v || isBaseTypeList v ||
    isBaseTypeDict v || isBaseTypePackable v
termination_by 3 * sizeOf v + 1

/-- `isBaseTypePair(val)`: a 2-tuple whose first member is a string (the
source does not test non-emptiness) and whose second member is any base
type (the source does not exclude pairs). -/
def isBaseTypePair (v : PyVal) : Bool :=
  match v with
  | .tupleV (.cons a (.cons b .nil)) => isString a && isBaseType b
  | _ => false
termination_by 3 * sizeOf v

/-- `isBaseTypeList(val)`: a list or tuple all of whose members pass the
member check. -/
def isBaseTypeList (v : PyVal) : Bool :=
  match v with
  | .listV l => memberChecks l
  | .tupleV l => memberChecks l
  | _ => false
termination_by 3 * sizeOf v

/-- `isBaseTypeDict(val)`: a dict whose keys are all strings and whose
values all pass the member check. -/
def isBaseTypeDict (v : PyVal) : Bool :=
  match v with
  | .dictV l => entryChecks l
  | _ => false
termination_by 3 * sizeOf v

/-- The `for v in val` loop of `isBaseTypeList`. -/
def memberChecks : PyValList → Bool
  | .nil => true
  | .cons v rest => memberCheck1 v && memberChecks rest
termination_by l => 3 * sizeOf l

/-- The member-condition `elif` chain shared by the loops of
`isBaseTypeList` and `isBaseTypeDict`. -/
def memberCheck1 (v : PyVal) : Bool :=
  if (isList v || isTuple v) && !(isBaseTypeList v) then false
  else if isDict v && !(isBaseTypeDict v) then false
  else if !(isBaseType v) then false
  else true
termination_by 3 * sizeOf v + 2

/-- The `for k, v in val.items()` loop of `isBaseTypeDict`. -/
def entryChecks : PyPairs → Bool
  | .nil => true
  | .cons k v rest => (isString k && memberCheck1 v) && entryChecks rest
termination_by l => 3 * sizeOf l
end

/-- `checkBaseType(baseTypeEnum, val)`: look the checker up in
`_baseTypeCheckers` and run it; a `KeyError` for an unregistered id is
swallowed by the `except` and yields `False`. -/
def checkBaseType (id : BaseTypeIds) (v : PyVal) : Bool :=
  match id with
  | .NULL => isNone v
  | .BOOL => isBool v
  | .INT => isInt v
  | .FLOAT => isFloat v
  | .DATETIME => isDateTime v
  | .STRING => isString v
  | .TAG => isBaseTypeTag v
  | .PAIR => isBaseTypePair v
  | .LIST => isBaseTypeList v
  | .DICTIONARY => isBaseTypeDict v
  | .PACKABLE => isBaseTypePackable v
  | _ => false

/-- `getBaseTypeId(val)`: try every registered checker in registration order
and return the first accepting id; `Option.none` models the final
`TypeError` raise. -/
def getBaseTypeId (v : PyVal) : Option BaseTypeIds :=
  if isNone v then Option.some BaseTypeIds.NULL
  else if isBool v then Option.some BaseTypeIds.BOOL
  else if isInt v then Option.some BaseTypeIds.INT
  else if isFloat v then Option.some BaseTypeIds.FLOAT
  else if isDateTime v then Option.some BaseTypeIds.DATETIME
  else if isString v then Option.some BaseTypeIds.STRING
  else if isBaseTypeTag v then Option.some BaseTypeIds.TAG
  else if isBaseTypePair v then Option.some BaseTypeIds.PAIR
  else if isBaseTypeList v then Option.some BaseTypeIds.LIST
  else if isBaseTypeDict v then Option.some BaseTypeIds.DICTIONARY
  else if isBaseTypePackable v then Option.some BaseTypeIds.PACKABLE
  else Option.none

/-! ### Reachability of an opaque object (for claim C4) -/

mutual
/-- Does the value contain, at any nesting depth (through tuple and list
members and dictionary values), an object that no checker recognizes? -/
def containsUnknown : PyVal → Bool
  | .unknownObj => true
  | .tupleV l => listContainsUnknown l
  | .listV l => listContainsUnknown l
  | .dictV e => pairsContainUnknown e
  | _ => false

/-- Some member of the list contains an unrecognized object. -/
def listContainsUnknown : PyValList → Bool
  | .nil => false
  | .cons v rest => containsUnknown v || listContainsUnknown rest

/-- Some value of the entry list contains an unrecognized object. -/
def pairsContainUnknown : PyPairs → Bool
  | .nil => false
  | .cons _ v rest => containsUnknown v || pairsContainUnknown rest
end

/-! ## Category predicates (src/jaxtools/basetypehelpers.py, identical in
src/jaxtools/basetypes/typehelpers.py)

Python raises at call time inside two of these bodies:
`isStorageTypeId` evaluates `(BaseTypeIds.DATE, BaseTypeIds.STRING,
BaseTypeIds.URL, BaseTypeIds.TAG, BaseTypeIds.BLOB)` and the enumeration has
no member `DATE` (or `URL`), so the attribute lookup raises
`AttributeError` before any membership test; `isStructureTypeId` evaluates
`id in (BaseTypeIds.PAIR)` where the parenthesised expression is just the
enum member, not a tuple, and membership in a non-iterable raises
`TypeError`. -/

/-- A Python exception raised by a category predicate. -/
inductive PyExn where
  | attributeError
  | typeError
deriving DecidableEq

/-- `isValueTypeId`: `id in (NULL, BOOL, INT, FLOAT)` (DATETIME absent). -/
def isValueTypeId (id : BaseTypeIds) : Except PyExn Bool :=
  Except.ok (id == BaseTypeIds.NULL || id == BaseTypeIds.BOOL ||
    id == BaseTypeIds.INT || id == BaseTypeIds.FLOAT)

/-- `isStorageTypeId`: raises `AttributeError` on every call, because
`BaseTypeIds.DATE` does not exist. -/
def isStorageTypeId (_ : BaseTypeIds) : Except PyExn Bool :=
  Except.error PyExn.attributeError

/-- `isStructureTypeId`: raises `TypeError` on every call, because
`id in (BaseTypeIds.PAIR)` tests membership in a non-iterable enum member. -/
def isStructureTypeId (_ : BaseTypeIds) : Except PyExn Bool :=
  Except.error PyExn.typeError

/-- `isCollectionTypeId`: `id in (DICTIONARY, LIST)`. -/
def isCollectionTypeId (id : BaseTypeIds) : Except PyExn Bool :=
  Except.ok (id == BaseTypeIds.DICTIONARY || id == BaseTypeIds.LIST)

/-- `isPackableTypeId`: `id == PACKABLE`. -/
def isPackableTypeId (id : BaseTypeIds) : Except PyExn Bool :=
  Except.ok (id == BaseTypeIds.PACKABLE)

/-- `isEndTypeId`: `id == END`. -/
def isEndTypeId (id : BaseTypeIds) : Except PyExn Bool :=
  Except.ok (id == BaseTypeIds.END)

/-! ## Reader elements -/

/-- An element iterated by a `BaseTypeReader`: a base type id together with
its payload (the value, a pair name, or a packable header). -/
abbrev Elem : Type := BaseTypeIds × PyVal

/-! ## ChildReader (src/jaxtools/basetypereaderwriterhelpers.py, 12-45) -/

/-- An exception raised while iterating a reader. -/
inductive ReaderExn where
  | stopIteration
  | typeError
deriving DecidableEq

/-- The mutable state of a `ChildReader`: `_first`, `_depth`, and the
not-yet-consumed elements of the parent reader. -/
structure CRState where
  first : Option Elem
  depth : Int
  parent : List Elem
deriving DecidableEq

/-- `ChildReader.__init__(parentReader, firstElem)`: stores the first
element and sets `_depth = 1` (the TODOs about validating `firstElem` and
adjusting the depth are not implemented). -/
def childReaderInit (parent : List Elem) (firstElem : Elem) : CRState :=
  ⟨Option.some firstElem, 1, parent⟩

/-- `ChildReader.__next__`, translated branch by branch:
the `depth < 1 and not first == None` test only executes `pass`;
then `if not self._first == None` pulls the next element FROM THE PARENT
(modelling `self._parentReader.next()` as yielding the parent's next
element, `StopIteration` when it is exhausted), while the `else` branch
sets `elem = self._first` — which is `None` there — and `elem[0]` on `None`
raises `TypeError`.  A final END element decrements `_depth`. -/
def childReaderNext (s : CRState) : Except ReaderExn (Elem × CRState) :=
  if s.first.isSome then
    match s.parent with
    | [] => Except.error ReaderExn.stopIteration
    | e :: rest =>
      if e.1 = BaseTypeIds.END then
        Except.ok (e, { s with parent := rest, depth := s.depth - 1 })
      else
        Except.ok (e, { s with parent := rest })
  else
    Except.error ReaderExn.typeError

/-! ## readWithCallbacks (src/jaxtools/basetypereaderwriterhelpers.py,
100-125)

Callbacks may be stateful objects, so each callback is modelled as a
function from a caller-chosen state type returning the boolean result and
the updated state. -/

/-- A `ReaderCallback` implementation with state type `σ`. -/
structure Callbacks (σ : Type) where
  onValue : σ → BaseTypeIds → PyVal → Bool × σ
  onPairStart : σ → PyVal → Bool × σ
  onListStart : σ → Bool × σ
  onDictionaryStart : σ → Bool × σ
  onPackableStart : σ → PyVal → Bool × σ
  onEnd : σ → Bool × σ

/-- Which callback a dispatched element went to, with its argument. -/
inductive CallTag where
  | onEnd
  | onPairStart (name : PyVal)
  | onListStart
  | onDictionaryStart
  | onPackableStart (header : PyVal)
  | onValue (id : BaseTypeIds) (v : PyVal)
deriving DecidableEq

/-- The callback an element is dispatched to, determined by its id alone:
END to `onEnd`, PAIR to `onPairStart` with the name, LIST to `onListStart`,
DICTIONARY to `onDictionaryStart`, PACKABLE to `onPackableStart` with the
header, anything else to `onValue`. -/
def callTagOf (e : Elem) : CallTag :=
  if e.1 = BaseTypeIds.END then CallTag.onEnd
  else if e.1 = BaseTypeIds.PAIR then CallTag.onPairStart e.2
  else if e.1 = BaseTypeIds.LIST then CallTag.onListStart
  else if e.1 = BaseTypeIds.DICTIONARY then CallTag.onDictionaryStart
  else if e.1 = BaseTypeIds.PACKABLE then CallTag.onPackableStart e.2
  else CallTag.onValue e.1 e.2

/-- The `if/elif` dispatch of one loop iteration of `readWithCallbacks`. -/
def dispatch {σ : Type} (cb : Callbacks σ) (st : σ) (e : Elem) : Bool × σ :=
  if e.1 = BaseTypeIds.END then cb.onEnd st
  else if e.1 = BaseTypeIds.PAIR then cb.onPairStart st e.2
  else if e.1 = BaseTypeIds.LIST then cb.onListStart st
  else if e.1 = BaseTypeIds.DICTIONARY then cb.onDictionaryStart st
  else if e.1 = BaseTypeIds.PACKABLE then cb.onPackableStart st e.2
  else cb.onValue st e.1 e.2

/-- `readWithCallbacks(reader, readerCallback)`: the reader is the element
list; each element is dispatched, a `False` result returns `False` at once,
exhaustion returns `True`.  The final callback state is returned as well. -/
def readWithCallbacks {σ : Type} (cb : Callbacks σ) (st : σ) :
    List Elem → Bool × σ
  | [] => (true, st)
  | e :: rest =>
    let r := dispatch cb st e
    if r.1 then readWithCallbacks cb r.2 rest else (false, r.2)

/-- `readWithCallbacks` instrumented with the list of dispatched callback
calls, in order. -/
def runTrace {σ : Type} (cb : Callbacks σ) (st : σ) :
    List Elem → Bool × List CallTag
  | [] => (true, [])
  | e :: rest =>
    let r := dispatch cb st e
    if r.1 then
      let t := runTrace cb r.2 rest
      (t.1, callTagOf e :: t.2)
    else (false, [callTagOf e])

/-- The boolean each element's callback would return, were the traversal
never aborted (state threaded through all of them). -/
def dispatchResults {σ : Type} (cb : Callbacks σ) (st : σ) :
    List Elem → List Bool
  | [] => []
  | e :: rest =>
    let r := dispatch cb st e
    r.1 :: dispatchResults cb r.2 rest

/-- Index of the first `false`, if any. -/
def firstFalse : List Bool → Option Nat
  | [] => Option.none
  | b :: rest => if b then (firstFalse rest).map (· + 1) else Option.some 0

/-- How many callbacks the driver dispatches: all of them when none returns
`false`, otherwise exactly up to and including the first `false`. -/
def stopCount (rs : List Bool) : Nat :=
  match firstFalse rs with
  | Option.none => rs.length
  | Option.some k => k + 1

/-! ## DictWriter (src/jaxtools/basetypes/dictreaderwriter.py)

`__init__` first stores the supplied (or fresh) dict in `self._dict` and
then immediately reassigns `self._dict = None`, so the initial state has
`_list = None`, `_dict = None`, `_keyName = None`, `_closed = False`.  The
unused `_collectionStack` is omitted (it is never read).  Python truthiness
is modelled explicitly: `None`, `[]`, `{}` and `""` are falsy.  A raise is
modelled as `Except.error`; every raising branch of `_writeValue` fires
before any mutation, so an error leaves the written data unchanged. -/

/-- An exception raised by a `DictWriter` method. -/
inductive DWError where
  | valueError
  | invalidKeyError
  | invalidTypeError
  | notInACollectionError
  | notImplementedError
  | attributeError
deriving DecidableEq

/-- The mutable state of a `DictWriter`. -/
structure DictWriter where
  list : Option (List PyVal)
  dict : Option (List (List Char × PyVal))
  keyName : Option (List Char)
  closed : Bool
deriving DecidableEq

/-- Python truthiness of `self._list`: not `None` and not empty. -/
def truthyList : Option (List PyVal) → Bool
  | Option.none => false
  | Option.some l => !l.isEmpty

/-- Python truthiness of `self._dict`: not `None` and not empty. -/
def truthyDict : Option (List (List Char × PyVal)) → Bool
  | Option.none => false
  | Option.some l => !l.isEmpty

/-- Python truthiness of `self._keyName`: not `None` and not `""`. -/
def truthyKey : Option (List Char) → Bool
  | Option.none => false
  | Option.some s => !s.isEmpty

/-- `DictWriter.__init__()`: the state after construction. -/
def DictWriter.init : DictWriter :=
  ⟨Option.none, Option.none, Option.none, false⟩

/-- `DictWriter._writeValue(value)`: closed check, then the truthiness
`if/elif` chain.  The `self._dict.add(...)` branch raises
`AttributeError` (Python dicts have no `add` method). -/
def DictWriter.writeValue (s : DictWriter) (v : PyVal) :
    Except DWError DictWriter :=
  if s.closed then Except.error DWError.valueError
  else if truthyKey s.keyName && truthyList s.list then
    Except.ok { s with
      list := Option.some ((s.list.getD []) ++
        [PyVal.tupleV (.cons (.strV (s.keyName.getD [])) (.cons v .nil))]),
      keyName := Option.none }
  else if truthyList s.list then
    Except.ok { s with list := Option.some ((s.list.getD []) ++ [v]) }
  else if truthyKey s.keyName && truthyDict s.dict then
    Except.error DWError.attributeError
  else if truthyDict s.dict then
    Except.error DWError.invalidKeyError
  else Except.error DWError.notInACollectionError

/-- `DictWriter.writeNullValue()`. -/
def DictWriter.writeNullValue (s : DictWriter) : Except DWError DictWriter :=
  s.writeValue PyVal.noneV

/-- `DictWriter.writeBoolValue(value)`: type check, then write `True` or
`False` according to the value's truthiness. -/
def DictWriter.writeBoolValue (s : DictWriter) (v : PyVal) :
    Except DWError DictWriter :=
  if isBool v then
    match v with
    | .boolV true => s.writeValue (PyVal.boolV true)
    | _ => s.writeValue (PyVal.boolV false)
  else Except.error DWError.invalidTypeError

/-- `DictWriter.writeIntValue(value)`. -/
def DictWriter.writeIntValue (s : DictWriter) (v : PyVal) :
    Except DWError DictWriter :=
  if isInt v then s.writeValue v else Except.error DWError.invalidTypeError

/-- `DictWriter.writeFloatValue(value)`: `raise NotImplementedError`. -/
def DictWriter.writeFloatValue (_ : DictWriter) (_ : PyVal) :
    Except DWError DictWriter :=
  Except.error DWError.notImplementedError

/-- `DictWriter.writeDateValue(value)`: `raise NotImplementedError`. -/
def DictWriter.writeDateValue (_ : DictWriter) (_ : PyVal) :
    Except DWError DictWriter :=
  Except.error DWError.notImplementedError

/-- `DictWriter.writeUrlValue(value)`: `raise NotImplementedError`. -/
def DictWriter.writeUrlValue (_ : DictWriter) (_ : PyVal) :
    Except DWError DictWriter :=
  Except.error DWError.notImplementedError

/-- `DictWriter.writeTagValue(value)`: `raise NotImplementedError`. -/
def DictWriter.writeTagValue (_ : DictWriter) (_ : PyVal) :
    Except DWError DictWriter :=
  Except.error DWError.notImplementedError

/-- `DictWriter.writeBlobValue(value)`: `raise NotImplementedError`. -/
def DictWriter.writeBlobValue (_ : DictWriter) (_ : PyVal) :
    Except DWError DictWriter :=
  Except.error DWError.notImplementedError

/-- `DictWriter.writeStringValue(value)`. -/
def DictWriter.writeStringValue (s : DictWriter) (v : PyVal) :
    Except DWError DictWriter :=
  if isString v then s.writeValue v else Except.error DWError.invalidTypeError

/-- `DictWriter.writePairStart(name)`: raises `InvalidKeyError` when a
(truthy) pair name is already pending, otherwise stores the name. -/
def DictWriter.writePairStart (s : DictWriter) (name : List Char) :
    Except DWError DictWriter :=
  if truthyKey s.keyName then Except.error DWError.invalidKeyError
  else Except.ok { s with keyName := Option.some name }

/-- `DictWriter.writeListStart()`: `pass`. -/
def DictWriter.writeListStart (s : DictWriter) : Except DWError DictWriter :=
  Except.ok s

/-- `DictWriter.writeDictionaryStart()`: `pass`. -/
def DictWriter.writeDictionaryStart (s : DictWriter) :
    Except DWError DictWriter :=
  Except.ok s

/-- `DictWriter.writePackableStart(packableHeader)`: `pass`. -/
def DictWriter.writePackableStart (s : DictWriter) (_ : PyVal) :
    Except DWError DictWriter :=
  Except.ok s

/-- `DictWriter.writeEnd()`: `pass`. -/
def DictWriter.writeEnd (s : DictWriter) : Except DWError DictWriter :=
  Except.ok s

/-- `DictWriter.close()`. -/
def DictWriter.close (s : DictWriter) : DictWriter :=
  { s with closed := true }

/-! ## Helper lemmas: splitting -/

theorem splitCh_no_sep (sep : Char) (l : List Char) (h : sep ∉ l) :
    splitCh sep l = [l] := by
  induction l with
  | nil => rfl
  | cons c cs ih =>
    simp only [List.mem_cons, not_or] at h
    rw [splitCh, if_neg (fun hc => h.1 hc.symm)]
    rw [ih h.2]

theorem splitCh_append (sep : Char) (a b : List Char) (h : sep ∉ a) :
    splitCh sep (a ++ sep :: b) = a :: splitCh sep b := by
  induction a with
  | nil => simp [splitCh]
  | cons c cs ih =>
    simp only [List.mem_cons, not_or] at h
    rw [List.cons_append, splitCh, if_neg (fun hc => h.1 hc.symm)]
    rw [ih h.2]

/-! ## Helper lemmas: decimal digits -/

theorem digitChar_toNat (d : Nat) (h : d < 10) : (digitChar d).toNat = 48 + d := by
  interval_cases d <;> decide

theorem isDigitCh_digitChar (d : Nat) (h : d < 10) :
    isDigitCh (digitChar d) = true := by
  interval_cases d <;> decide

theorem digitVal_digitChar (d : Nat) (h : d < 10) : digitVal (digitChar d) = d := by
  interval_cases d <;> decide

theorem digitsToNat_concat (l : List Char) (c : Char) :
    digitsToNat (l ++ [c]) = digitsToNat l * 10 + digitVal c := by
  simp [digitsToNat, List.foldl_append]

theorem toDecimalCore_digits :
    ∀ fuel n, n < fuel → ∀ c ∈ toDecimalCore fuel n, isDigitCh c = true := by
  intro fuel
  induction fuel with
  | zero => intro n h; omega
  | succ fuel ih =>
    intro n h c hc
    by_cases h10 : n < 10
    · simp only [toDecimalCore, if_pos h10, List.mem_singleton] at hc
      exact hc ▸ isDigitCh_digitChar n h10
    · simp only [toDecimalCore, if_neg h10, List.mem_append,
        List.mem_singleton] at hc
      rcases hc with hc | hc
      · exact ih (n / 10) (by omega) c hc
      · exact hc ▸ isDigitCh_digitChar (n % 10) (by omega)

theorem toDecimal_digits (n : Nat) : ∀ c ∈ toDecimal n, isDigitCh c = true :=
  toDecimalCore_digits (n + 1) n (by omega)

theorem toDecimalCore_val :
    ∀ fuel n, n < fuel → digitsToNat (toDecimalCore fuel n) = n := by
  intro fuel
  induction fuel with
  | zero => intro n h; omega
  | succ fuel ih =>
    intro n h
    by_cases h10 : n < 10
    · simp only [toDecimalCore, if_pos h10]
      simp [digitsToNat, digitVal_digitChar n h10]
    · simp only [toDecimalCore, if_neg h10]
      rw [digitsToNat_concat, ih (n / 10) (by omega),
        digitVal_digitChar (n % 10) (by omega)]
      omega

theorem toDecimal_val (n : Nat) : digitsToNat (toDecimal n) = n :=
  toDecimalCore_val (n + 1) n (by omega)

theorem not_mem_toDecimal (c : Char) (n : Nat) (h : isDigitCh c = false) :
    c ∉ toDecimal n := by
  intro hc
  rw [toDecimal_digits n c hc] at h
  exact Bool.true_eq_false.mp h

theorem toDecimalCore_length_le :
    ∀ fuel n k, n < fuel → n < 10 ^ k → 1 ≤ k →
      (toDecimalCore fuel n).length ≤ k := by
  intro fuel
  induction fuel with
  | zero => intro n k h; omega
  | succ fuel ih =>
    intro n k h hk h1
    by_cases h10 : n < 10
    · simp only [toDecimalCore, if_pos h10, List.length_singleton]
      omega
    · simp only [toDecimalCore, if_neg h10, List.length_append,
        List.length_singleton]
      have hk2 : 2 ≤ k := by
        by_contra hlt
        have : k = 1 := by omega
        subst this
        simp at hk
        omega
      have hdiv : n / 10 < 10 ^ (k - 1) := by
        rw [Nat.div_lt_iff_lt_mul (by omega)]
        calc n < 10 ^ k := hk
        _ = 10 ^ (k - 1) * 10 := by
            rw [← pow_succ]
            congr 1
            omega
      have := ih (n / 10) (k - 1) (by omega) hdiv (by omega)
      omega

theorem toDecimalCore_length_ge :
    ∀ fuel n k, n < fuel → 10 ^ k ≤ n → k + 1 ≤ (toDecimalCore fuel n).length := by
  intro fuel
  induction fuel with
  | zero => intro n k h; omega
  | succ fuel ih =>
    intro n k h hk
    by_cases h10 : n < 10
    · have hk0 : k = 0 := by
        by_contra hne
        have : 10 ≤ 10 ^ k := by
          calc (10 : Nat) = 10 ^ 1 := by norm_num
          _ ≤ 10 ^ k := Nat.pow_le_pow_right (by omega) (by omega)
        omega
      subst hk0
      simp [toDecimalCore, if_pos h10]
    · simp only [toDecimalCore, if_neg h10, List.length_append,
        List.length_singleton]
      rcases Nat.eq_zero_or_pos k with hk0 | hkpos
      · subst hk0
        have : 1 ≤ (toDecimalCore fuel (n / 10)).length :=
          ih (n / 10) 0 (by omega) (by simpa using Nat.one_le_div_iff (by omega) |>.mpr (by omega))
        omega
      · have hdiv : 10 ^ (k - 1) ≤ n / 10 := by
          rw [Nat.le_div_iff_mul_le (by omega)]
          calc 10 ^ (k - 1) * 10 = 10 ^ k := by
                rw [← pow_succ]
                congr 1
                omega
          _ ≤ n := hk
        have := ih (n / 10) (k - 1) (by omega) hdiv
        omega

theorem toDecimal_length4 (n : Nat) (h1 : 1000 ≤ n) (h2 : n ≤ 9999) :
    (toDecimal n).length = 4 := by
  have hle : (toDecimal n).length ≤ 4 :=
    toDecimalCore_length_le (n + 1) n 4 (by omega) (by norm_num; omega) (by omega)
  have hge : 4 ≤ (toDecimal n).length :=
    toDecimalCore_length_ge (n + 1) n 3 (by omega) (by norm_num; omega)
  omega

/-! ## Helper lemmas: dates and strptime -/

theorem daysInMonth_pos (y m : Nat) : 1 ≤ daysInMonth y m := by
  unfold daysInMonth
  split_ifs <;> omega

theorem daysInMonth_le_31 (y m : Nat) : daysInMonth y m ≤ 31 := by
  unfold daysInMonth
  split_ifs <;> omega

theorem matchY_toDecimal (y : Nat) (h1 : 1000 ≤ y) (h2 : y ≤ 9999) :
    matchY (toDecimal y) = Option.some y := by
  unfold matchY
  rw [if_pos, toDecimal_val]
  refine ⟨toDecimal_length4 y h1 h2, ?_⟩
  rw [List.all_eq_true]
  exact toDecimal_digits y

theorem matchM_toDecimal (m : Nat) (h1 : 1 ≤ m) (h2 : m ≤ 12) :
    matchM (toDecimal m) = Option.some m := by
  interval_cases m <;> decide

theorem matchD_toDecimal (d : Nat) (h1 : 1 ≤ d) (h2 : d ≤ 31) :
    matchD (toDecimal d) = Option.some d := by
  interval_cases d <;> decide

theorem dateString_mem (d : PyDate) :
    ∀ c ∈ dateString d, isDigitCh c = true ∨ c = '-' := by
  intro c hc
  unfold dateString at hc
  split_ifs at hc with hday hmon
  · exact Or.inl (toDecimal_digits _ c hc)
  · simp only [List.mem_append, List.mem_cons] at hc
    rcases hc with hc | hc | hc
    · exact Or.inl (toDecimal_digits _ c hc)
    · exact Or.inr hc
    · exact Or.inl (toDecimal_digits _ c hc)
  · simp only [List.mem_append, List.mem_cons] at hc
    rcases hc with hc | hc | hc | hc | hc
    · exact Or.inl (toDecimal_digits _ c hc)
    · exact Or.inr hc
    · exact Or.inl (toDecimal_digits _ c hc)
    · exact Or.inr hc
    · exact Or.inl (toDecimal_digits _ c hc)

theorem colon_not_mem_dateString (d : PyDate) : ':' ∉ dateString d := by
  intro hc
  rcases dateString_mem d ':' hc with h | h
  · exact absurd h (by decide)
  · exact absurd h (by decide)

theorem comma_not_mem_dateString (d : PyDate) : ',' ∉ dateString d := by
  intro hc
  rcases dateString_mem d ',' hc with h | h
  · exact absurd h (by decide)
  · exact absurd h (by decide)

theorem tryDate_dateString (d : PyDate)
    (hv : validDate d.year d.month d.day = true) (hy : 1000 ≤ d.year) :
    tryDateFormats (dateString d) = Option.some d := by
  obtain ⟨y, m, dd⟩ := d
  simp only [validDate, decide_eq_true_eq] at hv
  obtain ⟨h1, h2, h3, h4, h5, h6⟩ := hv
  simp only at hy
  have hyd : '-' ∉ toDecimal y := not_mem_toDecimal '-' y (by decide)
  have hmd : '-' ∉ toDecimal m := not_mem_toDecimal '-' m (by decide)
  have hdd : '-' ∉ toDecimal dd := not_mem_toDecimal '-' dd (by decide)
  have hY : matchY (toDecimal y) = Option.some y := matchY_toDecimal y hy h2
  by_cases hday : dd = 1
  · subst hday
    by_cases hmon : m = 1
    · subst hmon
      have hds : dateString ⟨y, 1, 1⟩ = toDecimal y := by simp [dateString]
      rw [hds]
      have hsplit : splitCh '-' (toDecimal y) = [toDecimal y] :=
        splitCh_no_sep _ _ hyd
      have hymd : strptimeYMD (toDecimal y) = Option.none := by
        unfold strptimeYMD
        rw [hsplit]
      have hym : strptimeYM (toDecimal y) = Option.none := by
        unfold strptimeYM
        rw [hsplit]
      have hvd : validDate y 1 1 = true := by
        simp only [validDate, decide_eq_true_eq]
        refine ⟨h1, h2, le_refl 1, by omega, le_refl 1, daysInMonth_pos y 1⟩
      unfold tryDateFormats
      rw [hymd, hym]
      simp [strptimeY, hY, hvd]
    · have hds : dateString ⟨y, m, 1⟩ = toDecimal y ++ ('-' :: toDecimal m) := by
        simp [dateString, hmon]
      rw [hds]
      have hsplit : splitCh '-' (toDecimal y ++ ('-' :: toDecimal m))
          = [toDecimal y, toDecimal m] := by
        rw [splitCh_append _ _ _ hyd, splitCh_no_sep _ _ hmd]
      have hymd : strptimeYMD (toDecimal y ++ ('-' :: toDecimal m))
          = Option.none := by
        unfold strptimeYMD
        rw [hsplit]
      have hM : matchM (toDecimal m) = Option.some m := matchM_toDecimal m h3 h4
      have hvd : validDate y m 1 = true := by
        simp only [validDate, decide_eq_true_eq]
        exact ⟨h1, h2, h3, h4, le_refl 1, daysInMonth_pos y m⟩
      unfold tryDateFormats
      rw [hymd]
      simp [strptimeYM, hsplit, hY, hM, hvd]
  · have hds : dateString ⟨y, m, dd⟩
        = toDecimal y ++ ('-' :: (toDecimal m ++ ('-' :: toDecimal dd))) := by
      simp [dateString, hday]
    rw [hds]
    have hsplit : splitCh '-'
        (toDecimal y ++ ('-' :: (toDecimal m ++ ('-' :: toDecimal dd))))
        = [toDecimal y, toDecimal m, toDecimal dd] := by
      rw [splitCh_append _ _ _ hyd, splitCh_append _ _ _ hmd,
        splitCh_no_sep _ _ hdd]
    have hM : matchM (toDecimal m) = Option.some m := matchM_toDecimal m h3 h4
    have hD : matchD (toDecimal dd) = Option.some dd :=
      matchD_toDecimal dd h5 (le_trans h6 (daysInMonth_le_31 y m))
    have hvd : validDate y m dd = true := by
      simp only [validDate, decide_eq_true_eq]
      exact ⟨h1, h2, h3, h4, h5, h6⟩
    have hymd : strptimeYMD
        (toDecimal y ++ ('-' :: (toDecimal m ++ ('-' :: toDecimal dd))))
        = Option.some ⟨y, m, dd⟩ := by
      unfold strptimeYMD
      rw [hsplit]
      simp [hY, hM, hD, hvd]
    unfold tryDateFormats
    rw [hymd]

/-- C3 (amended): for every Tag constructed from fields whose date is a
valid calendar date with a four-digit year, whose authority contains no
colon or comma, whose specific part contains no colon or hash, and whose
fragment (when present) contains no colon or hash, parsing the string
produced by its serialization yields a Tag with the same authority, date,
specific, and fragment. -/
theorem c3_tag_roundtrip_amended (t : Tag)
    (hv : validDate t.date.year t.date.month t.date.day = true)
    (hy : 1000 ≤ t.date.year)
    (ha1 : ':' ∉ t.authority) (ha2 : ',' ∉ t.authority)
    (hs1 : ':' ∉ t.specific) (hs2 : '#' ∉ t.specific)
    (hf : ∀ f, t.fragment = Option.some f → ':' ∉ f ∧ '#' ∉ f) :
    parseTag (tagToString t) = Except.ok t := by
  obtain ⟨auth, d, spec, frag⟩ := t
  simp only at hv hy ha1 ha2 hs1 hs2 hf
  have hdsc : ':' ∉ dateString d := colon_not_mem_dateString d
  have hdsm : ',' ∉ dateString d := comma_not_mem_dateString d
  have htag : ':' ∉ "tag".toList := by decide
  have hlow : pyLower ['t', 'a', 'g'] = ['t', 'a', 'g'] := by decide
  have hent : ':' ∉ auth ++ (',' :: dateString d) := by
    simp only [List.mem_append, List.mem_cons, not_or]
    exact ⟨ha1, by decide, hdsc⟩
  have h2 : splitCh ',' (auth ++ (',' :: dateString d)) = [auth, dateString d] := by
    rw [splitCh_append _ _ _ ha2, splitCh_no_sep _ _ hdsm]
  have h3 : tryDateFormats (dateString d) = Option.some d :=
    tryDate_dateString d hv hy
  cases frag with
  | none =>
    have hsfc : ':' ∉ specificAndFragment ⟨auth, d, spec, Option.none⟩ := hs1
    have h1 : splitCh ':' (tagToString ⟨auth, d, spec, Option.none⟩)
        = ["tag".toList, auth ++ (',' :: dateString d), spec] := by
      unfold tagToString taggingEntityString
      rw [splitCh_append _ _ _ htag, splitCh_append _ _ _ hent,
        splitCh_no_sep _ _ hsfc]
      rfl
    have h4 : splitCh '#' spec = [spec] := splitCh_no_sep _ _ hs2
    unfold parseTag
    rw [h1]
    simp [hlow, h2, h3, h4]
  | some f =>
    obtain ⟨hf1, hf2⟩ := hf f rfl
    have hsfc : ':' ∉ specificAndFragment ⟨auth, d, spec, Option.some f⟩ := by
      unfold specificAndFragment
      simp only [List.mem_append, List.mem_cons, not_or]
      exact ⟨hs1, by decide, hf1⟩
    have h1 : splitCh ':' (tagToString ⟨auth, d, spec, Option.some f⟩)
        = ["tag".toList, auth ++ (',' :: dateString d),
            spec ++ ('#' :: f)] := by
      unfold tagToString taggingEntityString
      rw [splitCh_append _ _ _ htag, splitCh_append _ _ _ hent,
        splitCh_no_sep _ _ hsfc]
      rfl
    have h4 : splitCh '#' (spec ++ ('#' :: f)) = [spec, f] := by
      rw [splitCh_append _ _ _ hs2, splitCh_no_sep _ _ hf2]
    unfold parseTag
    rw [h1]
    simp [hlow, h2, h3, h4]

/-- C3 (counterexample): the unrestricted round-trip claim fails on the
code.  A Tag constructed from fields with authority `"a,b"` serializes to
`"tag:a,b,2019:null"`, whose parse raises (comma split yields 3 parts);
a Tag with specific `"sp#ec"` and no fragment parses back with different
specific and fragment fields; a Tag with year 900 serializes to a
three-digit year which `%Y` (exactly four digits) rejects. -/
theorem c3_tag_roundtrip_counterexample :
    parseTag (tagToString ⟨"a,b".toList, ⟨2019, 1, 1⟩, "null".toList,
        Option.none⟩) = Except.error msgTagEntity
  ∧ parseTag (tagToString ⟨"a".toList, ⟨2019, 1, 1⟩, "sp#ec".toList,
        Option.none⟩)
      = Except.ok ⟨"a".toList, ⟨2019, 1, 1⟩, "sp".toList,
          Option.some "ec".toList⟩
  ∧ parseTag (tagToString ⟨"a".toList, ⟨900, 1, 1⟩, "x".toList,
        Option.none⟩) = Except.error msgTagDate :=
  ⟨rfl, rfl, rfl⟩

/-- C3 (witness): the amended theorem applied to the claim's own example
`Tag("tag:bt.co,2019:null")`. -/
theorem c3_tag_roundtrip_amended_witness :
    validDate 2019 1 1 = true ∧ 1000 ≤ 2019
  ∧ parseTag (tagToString ⟨"bt.co".toList, ⟨2019, 1, 1⟩, "null".toList,
      Option.none⟩)
    = Except.ok ⟨"bt.co".toList, ⟨2019, 1, 1⟩, "null".toList, Option.none⟩ :=
  ⟨by decide, by decide,
    c3_tag_roundtrip_amended
      ⟨"bt.co".toList, ⟨2019, 1, 1⟩, "null".toList, Option.none⟩
      (by decide) (by decide) (by decide) (by decide) (by decide) (by decide)
      (fun f hf => Option.noConfusion hf)⟩

/-! ## Claim C7: the parse algorithm -/

theorem tryDate_eq_specParseDate (l : List Char) :
    tryDateFormats l = specParseDate l := by
  unfold tryDateFormats specParseDate
  cases h1 : strptimeYMD l with
  | some d => simp [firstSome, h1]
  | none =>
    cases h2 : strptimeYM l with
    | some d => simp [firstSome, h2]
    | none =>
      cases h3 : strptimeY l with
      | some d => simp [firstSome, h2, h3]
      | none => simp [firstSome, h2, h3]

/-- C7: for every input string, Tag parsing follows the specified algorithm
and failure modes: split on a colon must yield exactly 3 parts with the
first case-insensitively equal to `tag`; split of the middle part on a
comma must yield exactly 2 parts; the date text is parsed trying
`YYYY-MM-DD`, then `YYYY-MM`, then `YYYY`, first success winning; a hash
split of the last part into more than 2 parts fails; every violation
raises the tag-parse error (the `ValueError` the source raises, which the
spec calls `MalformedTagError`, modelled by `Option.none` on the spec side)
and no Tag is produced. -/
theorem c7_tag_parse_algorithm (s : List Char) :
    (parseTag s).toOption = tagParseSpec s := by
  unfold parseTag tagParseSpec
  cases hc : splitCh ':' s with
  | nil => simp [Except.toOption]
  | cons p0 ps =>
    cases ps with
    | nil => simp [Except.toOption]
    | cons p1 ps2 =>
      cases ps2 with
      | nil => simp [Except.toOption]
      | cons p2 ps3 =>
        cases ps3 with
        | cons p3 ps4 => simp [Except.toOption]
        | nil =>
          by_cases hlow : pyLower p0 = ['t', 'a', 'g']
          · cases he : splitCh ',' p1 with
            | nil => simp [Except.toOption, hlow, he]
            | cons e0 es =>
              cases es with
              | nil => simp [Except.toOption, hlow, he]
              | cons e1 es2 =>
                cases es2 with
                | cons e2 es3 => simp [Except.toOption, hlow, he]
                | nil =>
                  cases hd : specParseDate e1 with
                  | none =>
                    have hd2 : tryDateFormats e1 = Option.none := by
                      rw [tryDate_eq_specParseDate, hd]
                    simp [Except.toOption, hlow, he, hd, hd2]
                  | some dt =>
                    have hd2 : tryDateFormats e1 = Option.some dt := by
                      rw [tryDate_eq_specParseDate, hd]
                    cases hh : splitCh '#' p2 with
                    | nil => simp [Except.toOption, hlow, he, hd, hd2, hh]
                    | cons s0 ss =>
                      cases ss with
                      | nil => simp [Except.toOption, hlow, he, hd, hd2, hh]
                      | cons s1 ss2 =>
                        cases ss2 with
                        | nil => simp [Except.toOption, hlow, he, hd, hd2, hh]
                        | cons s2 ss3 =>
                          simp [Except.toOption, hlow, he, hd, hd2, hh]
          · simp [Except.toOption, hlow]

/-! ## Helper lemmas: base-type checkers -/

theorem isBaseType_strV (s : List Char) : isBaseType (.strV s) = true := by
  rw [isBaseType]
  simp [isString]

theorem memberCheck1_strV (s : List Char) : memberCheck1 (.strV s) = true := by
  rw [memberCheck1]
  simp [isList, isTuple, isDict, isBaseType_strV]

theorem memberCheck1_of_isBaseType_aux :
    ∀ n v, sizeOf v < n → isBaseType v = true → memberCheck1 v = true := by
  intro n
  induction n with
  | zero => intro v h; omega
  | succ n ih =>
    intro v hsz hbt
    cases v with
    | noneV => simp [memberCheck1, isList, isTuple, isDict, hbt]
    | boolV b => simp [memberCheck1, isList, isTuple, isDict, hbt]
    | intV k => simp [memberCheck1, isList, isTuple, isDict, hbt]
    | floatV => simp [memberCheck1, isList, isTuple, isDict, hbt]
    | dateTimeV => simp [memberCheck1, isList, isTuple, isDict, hbt]
    | strV s => simp [memberCheck1, isList, isTuple, isDict, hbt]
    | tagV => simp [memberCheck1, isList, isTuple, isDict, hbt]
    | packableV => simp [memberCheck1, isList, isTuple, isDict, hbt]
    | unknownObj => simp [memberCheck1, isList, isTuple, isDict, hbt]
    | listV l =>
      have hl : isBaseTypeList (.listV l) = true := by
        rw [isBaseType] at hbt
        simpa [isNone, isBool, isInt, isFloat, isDateTime, isString,
          isBaseTypeTag, isBaseTypePair, isBaseTypeDict, isBaseTypePackable]
          using hbt
      simp [memberCheck1, isList, isTuple, isDict, hl, hbt]
    | dictV e =>
      have hl : isBaseTypeDict (.dictV e) = true := by
        rw [isBaseType] at hbt
        simpa [isNone, isBool, isInt, isFloat, isDateTime, isString,
          isBaseTypeTag, isBaseTypePair, isBaseTypeList, isBaseTypePackable]
          using hbt
      simp [memberCheck1, isList, isTuple, isDict, hl, hbt]
    | tupleV l =>
      have ht : isBaseTypePair (.tupleV l) = true ∨
          isBaseTypeList (.tupleV l) = true := by
        rw [isBaseType] at hbt
        simpa [isNone, isBool, isInt, isFloat, isDateTime, isString,
          isBaseTypeTag, isBaseTypeDict, isBaseTypePackable, Bool.or_eq_true]
          using hbt
      have hlist : isBaseTypeList (.tupleV l) = true := by
        rcases ht with hp | hl
        · cases l with
          | nil => simp [isBaseTypePair] at hp
          | cons a l2 =>
            cases l2 with
            | nil => simp [isBaseTypePair] at hp
            | cons b l3 =>
              cases l3 with
              | cons c l4 => simp [isBaseTypePair] at hp
              | nil =>
                simp only [isBaseTypePair, Bool.and_eq_true] at hp
                obtain ⟨hpa, hpb⟩ := hp
                have hma : memberCheck1 a = true := by
                  cases a <;> simp [isString] at hpa
                  exact memberCheck1_strV _
                have hmb : memberCheck1 b = true := by
                  refine ih b ?_ hpb
                  simp at hsz
                  omega
                simp [isBaseTypeList, memberChecks, hma, hmb]
        · exact hl
      simp [memberCheck1, isList, isTuple, isDict, hlist, hbt]

theorem memberCheck1_of_isBaseType (v : PyVal) (h : isBaseType v = true) :
    memberCheck1 v = true :=
  memberCheck1_of_isBaseType_aux (sizeOf v + 1) v (by omega) h

theorem pair_imp_list (v : PyVal) (h : isBaseTypePair v = true) :
    isBaseTypeList v = true := by
  cases v with
  | tupleV l =>
    cases l with
    | nil => simp [isBaseTypePair] at h
    | cons a l2 =>
      cases l2 with
      | nil => simp [isBaseTypePair] at h
      | cons b l3 =>
        cases l3 with
        | cons c l4 => simp [isBaseTypePair] at h
        | nil =>
          simp only [isBaseTypePair, Bool.and_eq_true] at h
          obtain ⟨ha, hb⟩ := h
          have hma : memberCheck1 a = true := by
            cases a <;> simp [isString] at ha
            exact memberCheck1_strV _
          have hmb : memberCheck1 b = true := memberCheck1_of_isBaseType b hb
          simp [isBaseTypeList, memberChecks, hma, hmb]
  | noneV => simp [isBaseTypePair] at h
  | boolV b => simp [isBaseTypePair] at h
  | intV k => simp [isBaseTypePair] at h
  | floatV => simp [isBaseTypePair] at h
  | dateTimeV => simp [isBaseTypePair] at h
  | strV s => simp [isBaseTypePair] at h
  | tagV => simp [isBaseTypePair] at h
  | packableV => simp [isBaseTypePair] at h
  | unknownObj => simp [isBaseTypePair] at h
  | listV l => simp [isBaseTypePair] at h
  | dictV e => simp [isBaseTypePair] at h

theorem containsUnknown_invalid_aux :
    ∀ n,
      (∀ v, sizeOf v < n → containsUnknown v = true →
        isBaseType v = false ∧ memberCheck1 v = false)
    ∧ (∀ l, sizeOf l < n → listContainsUnknown l = true →
        memberChecks l = false)
    ∧ (∀ e, sizeOf e < n → pairsContainUnknown e = true →
        entryChecks e = false) := by
  intro n
  induction n with
  | zero =>
    refine ⟨?_, ?_, ?_⟩ <;> (intro x hx hc; omega)
  | succ n ih =>
    obtain ⟨ihv, ihl, ihe⟩ := ih
    refine ⟨?_, ?_, ?_⟩
    · intro v hsz hc
      cases v with
      | noneV => simp [containsUnknown] at hc
      | boolV b => simp [containsUnknown] at hc
      | intV k => simp [containsUnknown] at hc
      | floatV => simp [containsUnknown] at hc
      | dateTimeV => simp [containsUnknown] at hc
      | strV s => simp [containsUnknown] at hc
      | tagV => simp [containsUnknown] at hc
      | packableV => simp [containsUnknown] at hc
      | unknownObj =>
        have hbase : isBaseType PyVal.unknownObj = false := by
          rw [isBaseType]
          simp [isNone, isBool, isInt, isFloat, isDateTime, isString,
            isBaseTypeTag, isBaseTypePair, isBaseTypeList, isBaseTypeDict,
            isBaseTypePackable]
        exact ⟨hbase, by simp [memberCheck1, isList, isTuple, isDict, hbase]⟩
      | listV l =>
        have hc2 : listContainsUnknown l = true := by
          simpa [containsUnknown] using hc
        have hm : memberChecks l = false := by
          refine ihl l ?_ hc2
          simp at hsz
          omega
        have hlist : isBaseTypeList (.listV l) = false := by
          simp [isBaseTypeList, hm]
        have hbase : isBaseType (.listV l) = false := by
          rw [isBaseType]
          simp [isNone, isBool, isInt, isFloat, isDateTime, isString,
            isBaseTypeTag, isBaseTypePair, isBaseTypeDict, isBaseTypePackable,
            hlist]
        exact ⟨hbase, by simp [memberCheck1, isList, isTuple, isDict, hlist]⟩
      | dictV e =>
        have hc2 : pairsContainUnknown e = true := by
          simpa [containsUnknown] using hc
        have hm : entryChecks e = false := by
          refine ihe e ?_ hc2
          simp at hsz
          omega
        have hdict : isBaseTypeDict (.dictV e) = false := by
          simp [isBaseTypeDict, hm]
        have hbase : isBaseType (.dictV e) = false := by
          rw [isBaseType]
          simp [isNone, isBool, isInt, isFloat, isDateTime, isString,
            isBaseTypeTag, isBaseTypePair, isBaseTypeList, isBaseTypePackable,
            hdict]
        exact ⟨hbase, by simp [memberCheck1, isList, isTuple, isDict, hdict]⟩
      | tupleV l =>
        have hc2 : listContainsUnknown l = true := by
          simpa [containsUnknown] using hc
        have hm : memberChecks l = false := by
          refine ihl l ?_ hc2
          simp at hsz
          omega
        have hlist : isBaseTypeList (.tupleV l) = false := by
          simp [isBaseTypeList, hm]
        have hpair : isBaseTypePair (.tupleV l) = false := by
          cases l with
          | nil => simp [isBaseTypePair]
          | cons a l2 =>
            cases l2 with
            | nil => simp [isBaseTypePair]
            | cons b l3 =>
              cases l3 with
              | cons c l4 => simp [isBaseTypePair]
              | nil =>
                have hc3 : containsUnknown a = true ∨ containsUnknown b = true := by
                  simpa [listContainsUnknown] using hc2
                rcases hc3 with hca | hcb
                · have hsa : isString a = false := by
                    cases a <;> simp [containsUnknown] at hca <;> simp [isString]
                  simp [isBaseTypePair, hsa]
                · have hb : isBaseType b = false := by
                    refine (ihv b ?_ hcb).1
                    simp at hsz
                    omega
                  simp [isBaseTypePair, hb]
        have hbase : isBaseType (.tupleV l) = false := by
          rw [isBaseType]
          simp [isNone, isBool, isInt, isFloat, isDateTime, isString,
            isBaseTypeTag, isBaseTypeDict, isBaseTypePackable, hpair, hlist]
        exact ⟨hbase, by simp [memberCheck1, isList, isTuple, isDict, hlist]⟩
    · intro l hsz hc
      cases l with
      | nil => simp [listContainsUnknown] at hc
      | cons v rest =>
        have hc2 : containsUnknown v = true ∨ listContainsUnknown rest = true := by
          simpa [listContainsUnknown] using hc
        rcases hc2 with hcv | hcr
        · have hmv : memberCheck1 v = false := by
            refine (ihv v ?_ hcv).2
            simp at hsz
            omega
          simp [memberChecks, hmv]
        · have hmr : memberChecks rest = false := by
            refine ihl rest ?_ hcr
            simp at hsz
            omega
          simp [memberChecks, hmr]
    · intro e hsz hc
      cases e with
      | nil => simp [pairsContainUnknown] at hc
      | cons k v rest =>
        have hc2 : containsUnknown v = true ∨ pairsContainUnknown rest = true := by
          simpa [pairsContainUnknown] using hc
        rcases hc2 with hcv | hcr
        · have hmv : memberCheck1 v = false := by
            refine (ihv v ?_ hcv).2
            simp at hsz
            omega
          simp [entryChecks, hmv]
        · have hmr : entryChecks rest = false := by
            refine ihe rest ?_ hcr
            simp at hsz
            omega
          simp [entryChecks, hmr]

/-- C1: the pair recognizer does NOT enforce the claimed invariants.  The
claim says `isBaseTypePair` accepts only 2-tuples whose first member is a
non-empty string and whose second member is a base type that is not itself
a pair; evaluating the code shows it accepts `("name", ("inner", 5))`
(nested pair) and `("", 1)` (empty name), because it only tests
`isString(val[0]) and isBaseType(val[1])` and a pair is itself a base
type. -/
theorem c1_isBaseTypePair_accepts_nested_pair :
    isBaseTypePair (.tupleV (.cons (.strV "name".toList)
      (.cons (.tupleV (.cons (.strV "inner".toList) (.cons (.intV 5) .nil)))
        .nil))) = true
  ∧ isBaseTypePair (.tupleV (.cons (.strV []) (.cons (.intV 1) .nil)))
      = true := by
  constructor <;>
    simp [isBaseTypePair, isBaseType, isNone, isBool, isInt, isFloat,
      isDateTime, isString, isTuple, isList, isDict, isBaseTypeTag,
      isBaseTypeList, isBaseTypeDict, isBaseTypePackable, memberChecks,
      memberCheck1, entryChecks]

/-- C4: base-type validity is recursive and rejects whole structures on any
nested violation.  Any dictionary containing, at any nesting depth, a value
matched by no recognizer is not a base type; the claim's concrete examples
evaluate as stated: the nested dictionary with a list and inner dictionary
is valid and the dictionary with the integer key 1 is not. -/
theorem c4_recursive_validity (d : PyPairs)
    (h : containsUnknown (.dictV d) = true) :
    isBaseType (.dictV d) = false
  ∧ isBaseType (.dictV (.cons (.strV ['a']) (.intV 1)
      (.cons (.strV ['b'])
        (.listV (.cons (.intV 1) (.cons (.strV ['x'])
          (.cons (.dictV (.cons (.strV ['c']) .noneV .nil)) .nil))))
        .nil))) = true
  ∧ isBaseType (.dictV (.cons (.intV 1) (.strV "bad key".toList) .nil))
      = false := by
  refine ⟨?_, ?_, ?_⟩
  · exact ((containsUnknown_invalid_aux (sizeOf (PyVal.dictV d) + 1)).1 _
      (by omega) h).1
  · simp [isBaseType, isBaseTypePair, isNone, isBool, isInt, isFloat,
      isDateTime, isString, isTuple, isList, isDict, isBaseTypeTag,
      isBaseTypeList, isBaseTypeDict, isBaseTypePackable, memberChecks,
      memberCheck1, entryChecks]
  · simp [isBaseType, isBaseTypePair, isNone, isBool, isInt, isFloat,
      isDateTime, isString, isTuple, isList, isDict, isBaseTypeTag,
      isBaseTypeList, isBaseTypeDict, isBaseTypePackable, memberChecks,
      memberCheck1, entryChecks]

/-- C4 (witness): the spec's example `{"x": {"y": SomeOpaqueObject()}}` is
rejected as a whole. -/
theorem c4_recursive_validity_witness :
    containsUnknown (.dictV (.cons (.strV ['x'])
        (.dictV (.cons (.strV ['y']) .unknownObj .nil)) .nil)) = true
  ∧ isBaseType (.dictV (.cons (.strV ['x'])
        (.dictV (.cons (.strV ['y']) .unknownObj .nil)) .nil)) = false :=
  ⟨by simp [containsUnknown, listContainsUnknown, pairsContainUnknown],
    (c4_recursive_validity
      (.cons (.strV ['x']) (.dictV (.cons (.strV ['y']) .unknownObj .nil)) .nil)
      (by simp [containsUnknown, listContainsUnknown,
        pairsContainUnknown])).1⟩

/-- C9: Python booleans are never classified as numbers.  For every bool
`b`, `getBaseTypeId` returns the BOOL id (the BOOL checker is registered
before INT and FLOAT, and `isInt` explicitly excludes bools while `isFloat`
requires the exact float type), and `checkBaseType` with INT or FLOAT
returns false on `b`. -/
theorem c9_bool_not_number (b : Bool) :
    getBaseTypeId (.boolV b) = Option.some BaseTypeIds.BOOL
  ∧ checkBaseType BaseTypeIds.INT (.boolV b) = false
  ∧ checkBaseType BaseTypeIds.FLOAT (.boolV b) = false := by
  cases b <;> exact ⟨rfl, rfl, rfl⟩

/-- C10: the pair/list overlap is resolved in favor of PAIR.  Every 2-tuple
of a string and a valid base type is accepted by both the pair recognizer
and the list recognizer (which also accepts tuples), and `getBaseTypeId`
returns PAIR for it because the checkers are tried in registration order
and PAIR is registered before LIST. -/
theorem c10_pair_wins_overlap (s : List Char) (v : PyVal)
    (h : isBaseType v = true) :
    isBaseTypePair (.tupleV (.cons (.strV s) (.cons v .nil))) = true
  ∧ isBaseTypeList (.tupleV (.cons (.strV s) (.cons v .nil))) = true
  ∧ getBaseTypeId (.tupleV (.cons (.strV s) (.cons v .nil)))
      = Option.some BaseTypeIds.PAIR := by
  have hp : isBaseTypePair (.tupleV (.cons (.strV s) (.cons v .nil))) = true := by
    simp [isBaseTypePair, isString, h]
  refine ⟨hp, pair_imp_list _ hp, ?_⟩
  unfold getBaseTypeId
  simp [isNone, isBool, isInt, isFloat, isDateTime, isString, isBaseTypeTag, hp]

/-- C10 (witness): the overlap theorem applied to `("k", 3)`. -/
theorem c10_pair_wins_overlap_witness :
    isBaseType (.intV 3) = true
  ∧ getBaseTypeId (.tupleV (.cons (.strV ['k']) (.cons (.intV 3) .nil)))
      = Option.some BaseTypeIds.PAIR :=
  ⟨by rw [isBaseType]; simp [isNone, isBool, isInt],
    (c10_pair_wins_overlap ['k'] (.intV 3)
      (by rw [isBaseType]; simp [isNone, isBool, isInt])).2.2⟩

/-- C2: `ChildReader` does not iterate the child subtree the claim (and its
own docstring) describe.  Its first-element test is inverted
(`if not self._first == None` pulls from the PARENT), so with a plain-value
first element `(INT, 7)` and a parent whose next element is
`(STRING, "p")`, the first call to next yields the parent's element — not
the supplied first element — and once the parent is exhausted the reader
raises `StopIteration` while still holding the never-yielded first element,
instead of stopping after yielding it without consuming the parent. -/
theorem c2_childreader_ignores_first_element :
    childReaderNext (childReaderInit [(BaseTypeIds.STRING, PyVal.strV ['p'])]
        (BaseTypeIds.INT, PyVal.intV 7))
      = Except.ok ((BaseTypeIds.STRING, PyVal.strV ['p']),
          ⟨Option.some (BaseTypeIds.INT, PyVal.intV 7), 1, []⟩)
  ∧ childReaderNext ⟨Option.some (BaseTypeIds.INT, PyVal.intV 7), 1, []⟩
      = Except.error ReaderExn.stopIteration :=
  ⟨rfl, rfl⟩

/-! ## Claim C5: the callback driver -/

theorem firstFalse_cons (b : Bool) (rs : List Bool) :
    firstFalse (b :: rs)
      = if b then (firstFalse rs).map (· + 1) else Option.some 0 := by
  simp [firstFalse]

theorem stopCount_cons_true (rs : List Bool) :
    stopCount (true :: rs) = stopCount rs + 1 := by
  cases h : firstFalse rs <;> simp [stopCount, firstFalse, h]

theorem stopCount_cons_false (rs : List Bool) : stopCount (false :: rs) = 1 := by
  simp [stopCount, firstFalse]

/-- C5: for every finite element sequence, each element is dispatched to
exactly one callback chosen by its id (recorded by `callTagOf`: End to
onEnd, Pair to onPairStart with the name, List to onListStart, Dictionary
to onDictionaryStart, Packable to onPackableStart with the header, anything
else to onValue); the driver returns true exactly when no dispatched
callback returns false, the instrumented run agrees with the driver, and
the dispatched-call trace is exactly the first `stopCount` elements — all
of them on success, and exactly `k + 1` calls when the `(k+1)`-st callback
is the first to return false, so the driver stops right after it without
dispatching further callbacks. -/
theorem c5_readWithCallbacks_spec (σ : Type) (cb : Callbacks σ) (st : σ)
    (elems : List Elem) :
    (readWithCallbacks cb st elems).1
        = (firstFalse (dispatchResults cb st elems)).isNone
  ∧ (runTrace cb st elems).1 = (readWithCallbacks cb st elems).1
  ∧ (runTrace cb st elems).2
      = (elems.take (stopCount (dispatchResults cb st elems))).map callTagOf := by
  induction elems generalizing st with
  | nil => simp [readWithCallbacks, runTrace, dispatchResults, firstFalse, stopCount]
  | cons e rest ih =>
    obtain ⟨ih1, ih2, ih3⟩ := ih (dispatch cb st e).2
    by_cases hb : (dispatch cb st e).1 = true
    · have hrs : dispatchResults cb st (e :: rest)
          = true :: dispatchResults cb (dispatch cb st e).2 rest := by
        simp [dispatchResults, hb]
      refine ⟨?_, ?_, ?_⟩
      · simp only [readWithCallbacks, hb, if_true, hrs, firstFalse_cons]
        rw [ih1]
        cases firstFalse (dispatchResults cb (dispatch cb st e).2 rest) <;> simp
      · simp only [readWithCallbacks, runTrace, hb, if_true]
        exact ih2.trans ih1 |>.trans ih1.symm
      · simp only [runTrace, hb, if_true, hrs, stopCount_cons_true,
          List.take_succ_cons, List.map_cons]
        rw [ih3]
    · have hb2 : (dispatch cb st e).1 = false := by
        revert hb
        cases (dispatch cb st e).1 <;> simp
      have hrs : dispatchResults cb st (e :: rest)
          = false :: dispatchResults cb (dispatch cb st e).2 rest := by
        simp [dispatchResults, hb2]
      refine ⟨?_, ?_, ?_⟩
      · simp [readWithCallbacks, hb2, hrs, firstFalse_cons]
      · simp [readWithCallbacks, runTrace, hb2]
      · simp [runTrace, hb2, hrs, stopCount_cons_false, List.take_succ_cons]

/-! ## Claim C6: DictWriter framing -/

/-- C6 (counterexample): the claim fails as stated.  In the initial state
(no scope open, no pair pending) `writeFloatValue` raises
`NotImplementedError`, not `NotInACollectionError` (likewise the date, url,
tag and blob writers — they are unimplemented stubs); after
`writePairStart("")` an (empty) pair name is pending, yet a second
`writePairStart` succeeds because the empty string is falsy; and on a
closed writer a value write raises `ValueError` instead. -/
theorem c6_dictwriter_counterexample :
    DictWriter.writeFloatValue DictWriter.init PyVal.floatV
      = Except.error DWError.notImplementedError
  ∧ DictWriter.writePairStart DictWriter.init []
      = Except.ok ⟨Option.none, Option.none, Option.some [], false⟩
  ∧ DictWriter.writePairStart
        ⟨Option.none, Option.none, Option.some [], false⟩ "x".toList
      = Except.ok ⟨Option.none, Option.none, Option.some "x".toList, false⟩
  ∧ DictWriter.writeNullValue (DictWriter.close DictWriter.init)
      = Except.error DWError.valueError :=
  ⟨rfl, rfl, rfl, rfl⟩

/-- C6 (amended): in every non-closed writer state with no truthy open
collection and no truthy pending pair name, each of the implemented value
writes (null, bool, int, string) raises `NotInACollectionError` — the raise
fires before any mutation, so the written data is unchanged; the float,
date, url, tag and blob writers are unimplemented stubs raising
`NotImplementedError` in every state; and whenever a non-empty (truthy)
pair name is pending, a second `writePairStart` raises
`InvalidKeyError`. -/
theorem c6_dictwriter_framing_amended (s : DictWriter)
    (hc : s.closed = false) (hl : truthyList s.list = false)
    (hd : truthyDict s.dict = false) (hk : truthyKey s.keyName = false) :
    s.writeNullValue = Except.error DWError.notInACollectionError
  ∧ (∀ v, isBool v = true →
      s.writeBoolValue v = Except.error DWError.notInACollectionError)
  ∧ (∀ v, isInt v = true →
      s.writeIntValue v = Except.error DWError.notInACollectionError)
  ∧ (∀ v, isString v = true →
      s.writeStringValue v = Except.error DWError.notInACollectionError)
  ∧ (∀ (t : DictWriter) v,
      t.writeFloatValue v = Except.error DWError.notImplementedError)
  ∧ (∀ (t : DictWriter) name, truthyKey t.keyName = true →
      t.writePairStart name = Except.error DWError.invalidKeyError) := by
  have hwv : ∀ v, s.writeValue v = Except.error DWError.notInACollectionError := by
    intro v
    simp [DictWriter.writeValue, hc, hk, hl, hd]
  refine ⟨?_, ?_, ?_, ?_, ?_, ?_⟩
  · simp [DictWriter.writeNullValue, hwv]
  · intro v hv
    cases v with
    | boolV b => cases b <;> simp [DictWriter.writeBoolValue, isBool, hwv]
    | noneV => simp [isBool] at hv
    | intV k => simp [isBool] at hv
    | floatV => simp [isBool] at hv
    | dateTimeV => simp [isBool] at hv
    | strV s2 => simp [isBool] at hv
    | tagV => simp [isBool] at hv
    | packableV => simp [isBool] at hv
    | unknownObj => simp [isBool] at hv
    | tupleV l => simp [isBool] at hv
    | listV l => simp [isBool] at hv
    | dictV l => simp [isBool] at hv
  · intro v hv
    simp [DictWriter.writeIntValue, hv, hwv]
  · intro v hv
    simp [DictWriter.writeStringValue, hv, hwv]
  · intro t v
    simp [DictWriter.writeFloatValue]
  · intro t name hk2
    simp [DictWriter.writePairStart, hk2]

/-- C6 (witness): the amended theorem applied to the initial writer state. -/
theorem c6_dictwriter_framing_amended_witness :
    DictWriter.init.closed = false
  ∧ truthyList DictWriter.init.list = false
  ∧ truthyDict DictWriter.init.dict = false
  ∧ truthyKey DictWriter.init.keyName = false
  ∧ DictWriter.writeNullValue DictWriter.init
      = Except.error DWError.notInACollectionError :=
  ⟨rfl, rfl, rfl, rfl,
    (c6_dictwriter_framing_amended DictWriter.init rfl rfl rfl rfl).1⟩

/-- C8: the six category predicates neither partition the ids nor run
without raising.  Evaluating the code: `isStorageTypeId` raises
`AttributeError` on every id (`BaseTypeIds.DATE` and `BaseTypeIds.URL` do
not exist), `isStructureTypeId` raises `TypeError` on every id (membership
test `id in (BaseTypeIds.PAIR)` on a non-iterable enum member), and for
DATETIME every predicate that does run returns false — DATETIME is missing
from `isValueTypeId`'s tuple — so no id category accepts it. -/
theorem c8_category_predicates_raise :
    isValueTypeId BaseTypeIds.DATETIME = Except.ok false
  ∧ (∀ id, isStorageTypeId id = Except.error PyExn.attributeError)
  ∧ (∀ id, isStructureTypeId id = Except.error PyExn.typeError)
  ∧ isCollectionTypeId BaseTypeIds.DATETIME = Except.ok false
  ∧ isPackableTypeId BaseTypeIds.DATETIME = Except.ok false
  ∧ isEndTypeId BaseTypeIds.DATETIME = Except.ok false :=
  ⟨rfl, fun _ => rfl, fun _ => rfl, rfl, rfl, rfl⟩
